import Mathlib

/-!
Shallow embedding of the optimistic state-synchronization engine of
`src/App.tsx` (a React todo application), together with proofs of the
specification's claims about it.

The React component state (`useState` hooks) becomes an explicit record
`AppState`; each event handler becomes a pure function from the ambient
auth user, a `Remote` valuation (the outcome each remote CRUD call would
have), and the current state, to the new state paired with the list of
remote calls the handler dispatched.  `showError`'s `setTimeout`-based
auto-expiry is modelled separately as a timeline interpreter
(`errorAt`), since it is the only temporal behaviour.
-/

/-- A todo item, as in `src/types/Todo`: server-assigned integer id,
title, completion flag and owning user id. -/
structure Todo where
  id : Nat
  title : String
  completed : Bool
  userId : Nat
deriving Repr, DecidableEq

/-- The error banner state (`src/types/ErrorType`): an active flag and
the message shown. -/
structure ErrorType where
  status : Bool
  message : String
deriving Repr, DecidableEq

/-- Filter modes from `src/types/FilterType`. -/
inductive FilterType where
  | all
  | active
  | completed
deriving Repr, DecidableEq

/-- The authenticated user from `AuthContext`; only `user.id` is used by
`App.tsx`. -/
structure User where
  id : Nat
deriving Repr, DecidableEq

/-- The patch argument of `updateTodo`: the component always sends either
`{ completed: b }` or `{ title: s }`. -/
inductive Patch where
  | completed (value : Bool)
  | title (value : String)
deriving Repr, DecidableEq

/-- A remote CRUD call dispatched by a handler, mirroring the api used in
`App.tsx` (`getTodos`, `createTodo`, `updateTodo`, `deleteTodo`). -/
inductive RemoteCall where
  | list (userId : Nat)
  | create (title : String) (userId : Nat)
  | update (id : Nat) (patch : Patch)
  | delete (id : Nat)
deriving Repr, DecidableEq

/-- A valuation for the remote store: the result each call would return.
`Except Unit` models promise resolution vs. rejection. -/
structure Remote where
  getTodos : Nat → Except Unit (List Todo)
  createTodo : String → Nat → Except Unit Todo
  updateTodo : Nat → Patch → Except Unit Todo
  deleteTodo : Nat → Except Unit Unit

/-- Whether an `Except` result is a success (a resolved promise). -/
def exceptOk {α : Type} : Except Unit α → Bool
  | .ok _ => true
  | .error _ => false

/-- The component state of `App.tsx`: the eight `useState` hooks that the
claims concern (`visibleTodos` and `filterBy` live in the pure
`visibleTodos` function below). -/
structure AppState where
  todos : List Todo
  error : ErrorType
  todoTitle : String
  isAdding : Bool
  deletedTodoIds : List Nat
  selectedTodoIds : List Nat
deriving Repr, DecidableEq

/-- `showError` (App.tsx:42-48): sets the error banner active with the
message.  The 3000 ms `setTimeout` auto-clear is modelled by the separate
timeline interpreter `errorAt`. -/
def showError (s : AppState) (message : String) : AppState :=
  { s with error := { status := true, message := message } }

/-- `loadTodos` (App.tsx:50-60): when a user is present, fetch the full
list; on success replace `todos` wholesale, on failure raise
"Unable to load todos" (the exception is caught here, so callers never
see a rejected reload).  With no user it does nothing. -/
def loadTodos (user : Option User) (remote : Remote) (s : AppState) :
    AppState × List RemoteCall :=
  match user with
  | none => (s, [])
  | some u =>
    match remote.getTodos u.id with
    | .ok todosFromServer => ({ s with todos := todosFromServer }, [.list u.id])
    | .error _ => (showError s "Unable to load todos", [.list u.id])

/-- JavaScript's `String.prototype.trim` as used in
`todoTitle.trim()` (App.tsx:69): strips leading and trailing
whitespace.  Written with structural recursion so proofs can evaluate
it. -/
def jsTrim (s : String) : String :=
  ⟨((s.data.dropWhile Char.isWhitespace).reverse.dropWhile
      Char.isWhitespace).reverse⟩

/-- `handleAddNewTodo` (App.tsx:62-86): guarded by the user; sets
`isAdding`, rejects an empty trimmed title with "Title can't be empty",
otherwise creates the todo and reloads; on create failure raises
"Unable to add a todo"; the title is cleared only on the success path,
and `isAdding` ends false on every path. -/
def handleAddNewTodo (user : Option User) (remote : Remote) (s : AppState) :
    AppState × List RemoteCall :=
  match user with
  | none => (s, [])
  | some u =>
    let s1 : AppState := { s with isAdding := true }
    if (jsTrim s1.todoTitle).length == 0 then
      ({ showError s1 "Title can't be empty" with isAdding := false }, [])
    else
      match remote.createTodo s1.todoTitle u.id with
      | .error _ =>
        ({ showError s1 "Unable to add a todo" with isAdding := false },
         [.create s1.todoTitle u.id])
      | .ok _ =>
        let r := loadTodos user remote s1
        ({ r.1 with isAdding := false, todoTitle := "" },
         .create s1.todoTitle u.id :: r.2)

/-- `handleDeleteTodo` (App.tsx:88-98): appends `todoId` to
`deletedTodoIds`, deletes, then reloads.  On delete failure raises
"Unable to delete a todo" and resets `deletedTodoIds` to `[]`.  Note: no
user guard, and the marker is never removed on the success path. -/
def handleDeleteTodo (user : Option User) (remote : Remote) (todoId : Nat)
    (s : AppState) : AppState × List RemoteCall :=
  let s1 : AppState := { s with deletedTodoIds := s.deletedTodoIds ++ [todoId] }
  match remote.deleteTodo todoId with
  | .error _ =>
    ({ showError s1 "Unable to delete a todo" with deletedTodoIds := [] },
     [.delete todoId])
  | .ok _ =>
    let r := loadTodos user remote s1
    (r.1, .delete todoId :: r.2)

/-- `handleDeleteCompletedTodos` (App.tsx:100-121): sets
`deletedTodoIds` to the completed ids up front, dispatches a delete for
every completed todo (all dispatched; `Promise.all` rejects if any
fails), then reloads.  On any delete failure raises
"Unable to delete a todo" and clears `selectedTodoIds` (not
`deletedTodoIds`). -/
def handleDeleteCompletedTodos (user : Option User) (remote : Remote)
    (s : AppState) : AppState × List RemoteCall :=
  let completedTodos := s.todos.filter (fun todo => todo.completed)
  let completedTodoIds := completedTodos.map (fun todo => todo.id)
  let s1 : AppState := { s with deletedTodoIds := completedTodoIds }
  let calls := completedTodos.map (fun todo => RemoteCall.delete todo.id)
  if completedTodos.all (fun todo => exceptOk (remote.deleteTodo todo.id)) then
    let r := loadTodos user remote s1
    (r.1, calls ++ r.2)
  else
    ({ showError s1 "Unable to delete a todo" with selectedTodoIds := [] },
     calls)

/-- `handleToggleTodo` (App.tsx:123-139): appends `todoId` to
`selectedTodoIds`, updates with the flipped flag, reloads, then filters
`todoId` out of `selectedTodoIds`.  On update failure raises
"Unable to update a todo" and resets `selectedTodoIds` to `[]`. -/
def handleToggleTodo (user : Option User) (remote : Remote) (todoId : Nat)
    (completed : Bool) (s : AppState) : AppState × List RemoteCall :=
  let s1 : AppState := { s with selectedTodoIds := s.selectedTodoIds ++ [todoId] }
  match remote.updateTodo todoId (.completed (!completed)) with
  | .error _ =>
    ({ showError s1 "Unable to update a todo" with selectedTodoIds := [] },
     [.update todoId (.completed (!completed))])
  | .ok _ =>
    let r := loadTodos user remote s1
    ({ r.1 with
        selectedTodoIds := r.1.selectedTodoIds.filter (fun id => id ≠ todoId) },
     .update todoId (.completed (!completed)) :: r.2)

/-- `isEachTodoCompleted` (App.tsx:141-143). -/
def isEachTodoCompleted (todos : List Todo) : Bool :=
  todos.all (fun todo => todo.completed)

/-- `handleToggleAllTodos` (App.tsx:145-161): for each todo with
`!todo.completed || allCompleted`, appends its id to `selectedTodoIds`
and dispatches an update with the flipped flag (all marker appends run
synchronously before any await settles, and every update is dispatched);
then reloads and clears `selectedTodoIds`; on any update failure raises
"Unable to update a todo" and clears `selectedTodoIds`. -/
def handleToggleAllTodos (user : Option User) (remote : Remote)
    (s : AppState) : AppState × List RemoteCall :=
  let allCompleted := isEachTodoCompleted s.todos
  let targets := s.todos.filter (fun todo => !todo.completed || allCompleted)
  let calls := targets.map
    (fun todo => RemoteCall.update todo.id (.completed (!todo.completed)))
  let s1 : AppState :=
    { s with selectedTodoIds := s.selectedTodoIds ++ targets.map (fun todo => todo.id) }
  if targets.all
      (fun todo => exceptOk (remote.updateTodo todo.id (.completed (!todo.completed)))) then
    let r := loadTodos user remote s1
    ({ r.1 with selectedTodoIds := [] }, calls ++ r.2)
  else
    ({ showError s1 "Unable to update a todo" with selectedTodoIds := [] },
     calls)

/-- `handleChangeTodoTitle` (App.tsx:163-177): sets `selectedTodoIds` to
exactly `[todoId]`, updates the title, reloads, clears
`selectedTodoIds`; on update failure raises "Unable to update a todo"
and clears `selectedTodoIds`. -/
def handleChangeTodoTitle (user : Option User) (remote : Remote)
    (todoId : Nat) (title : String) (s : AppState) :
    AppState × List RemoteCall :=
  let s1 : AppState := { s with selectedTodoIds := [todoId] }
  match remote.updateTodo todoId (.title title) with
  | .error _ =>
    ({ showError s1 "Unable to update a todo" with selectedTodoIds := [] },
     [.update todoId (.title title)])
  | .ok _ =>
    let r := loadTodos user remote s1
    ({ r.1 with selectedTodoIds := [] }, .update todoId (.title title) :: r.2)

/-- The `visibleTodos` filter effect (App.tsx:195-213).  In the `ALL`
branch the source returns the `todo` object itself, which is always
truthy in JavaScript, so `ALL` keeps every item. -/
def visibleTodos (todos : List Todo) (filterBy : FilterType) : List Todo :=
  todos.filter (fun todo =>
    match filterBy with
    | .all => true
    | .active => !todo.completed
    | .completed => todo.completed)

/-!
Timeline model of `showError`'s auto-expiry (App.tsx:42-48).  A call
`showError(message)` at time `r` sets the banner and schedules, via
`setTimeout(..., 3000)`, an unconditional clear at `r + 3000`; the
timer is never cancelled, so every scheduled clear fires.  Given the
raise history `raises` (time/message pairs, at most one per
millisecond), `errorAt raises t` is the banner state once every event
with time `≤ t` has run. `notifierStep` advances one millisecond: the
clears scheduled for that instant fire first (each sets the banner
inactive), then any raise at that instant sets it active. -/

/-- One millisecond of the error-banner timeline: fire due timers, then
apply any raise occurring at instant `u`. -/
def notifierStep (raises : List (Nat × String)) (e : ErrorType) (u : Nat) :
    ErrorType :=
  let afterClears :=
    if raises.any (fun p => p.1 + 3000 == u) then
      { status := false, message := "" }
    else e
  (raises.filter (fun p => p.1 == u)).foldl
    (fun _ p => { status := true, message := p.2 }) afterClears

/-- The error-banner state after all events up to and including time `t`
have run, starting from the inactive banner. -/
def errorAt (raises : List (Nat × String)) : Nat → ErrorType
  | 0 => notifierStep raises { status := false, message := "" } 0
  | t + 1 => notifierStep raises (errorAt raises t) (t + 1)

/-- Whether a dispatched call is an `updateTodo` call. -/
def isUpdateCall : RemoteCall → Bool
  | .update _ _ => true
  | _ => false

/-- The cached list of `s'` is either exactly the cached list of `s`
(left alone) or the wholesale result of a successful `list()` read for
the current user — never a locally patched version. -/
def todosFromReload (user : Option User) (remote : Remote)
    (s s' : AppState) : Prop :=
  s'.todos = s.todos
  ∨ ∃ u, user = some u ∧ remote.getTodos u.id = Except.ok s'.todos

/-!  Concrete fixtures used by counterexamples and witnesses. -/

/-- A remote where every call succeeds and `list()` returns `[]`. -/
def remoteAllOkEmpty : Remote where
  getTodos := fun _ => .ok []
  createTodo := fun title userId => .ok ⟨99, title, false, userId⟩
  updateTodo := fun id _ => .ok ⟨id, "", false, 0⟩
  deleteTodo := fun _ => .ok ()

/-- A remote where `list()` rejects and every other call succeeds. -/
def remoteListErr : Remote where
  getTodos := fun _ => .error ()
  createTodo := fun title userId => .ok ⟨99, title, false, userId⟩
  updateTodo := fun id _ => .ok ⟨id, "", false, 0⟩
  deleteTodo := fun _ => .ok ()

/-- A remote where `delete()` rejects and every other call succeeds. -/
def remoteDeleteErr : Remote where
  getTodos := fun _ => .ok []
  createTodo := fun title userId => .ok ⟨99, title, false, userId⟩
  updateTodo := fun id _ => .ok ⟨id, "", false, 0⟩
  deleteTodo := fun _ => .error ()

/-- The spec's end-to-end scenario state: a single active todo. -/
def stateA : AppState where
  todos := [⟨1, "A", false, 7⟩]
  error := ⟨false, ""⟩
  todoTitle := ""
  isAdding := false
  deletedTodoIds := []
  selectedTodoIds := []

/-- `stateA` with an unrelated id already in `deletedTodoIds`. -/
def stateD : AppState := { stateA with deletedTodoIds := [5] }

/-- `stateA` with a whitespace-only draft title. -/
def stateWS : AppState := { stateA with todoTitle := "   " }

/-- `stateA` with two unrelated ids already in `selectedTodoIds`. -/
def stateSel : AppState := { stateA with selectedTodoIds := [3, 9] }

/-- A mixed list: one active and one completed todo. -/
def stateMixed : AppState :=
  { stateA with todos := [⟨1, "A", false, 7⟩, ⟨2, "B", true, 7⟩] }

/-- A list where every todo is completed. -/
def stateAllDone : AppState :=
  { stateA with todos := [⟨1, "A", true, 7⟩, ⟨2, "B", true, 7⟩] }

/-!  Claim theorems. -/

/-- C9: `visibleTodos` is a pure filter: `ALL` is the identity, `ACTIVE`
keeps exactly the items with `completed == false`, `COMPLETED` keeps
exactly the items with `completed == true`, both are order-preserving
sublists of the input, and together they partition the input by the
completed flag (counted with multiplicity). -/
theorem C9_visibleTodos_pure_filter (L : List Todo) :
    visibleTodos L .all = L
    ∧ (∀ t : Todo, t ∈ visibleTodos L .active ↔ t ∈ L ∧ t.completed = false)
    ∧ (∀ t : Todo, t ∈ visibleTodos L .completed ↔ t ∈ L ∧ t.completed = true)
    ∧ List.Sublist (visibleTodos L .active) L
    ∧ List.Sublist (visibleTodos L .completed) L
    ∧ (∀ t : Todo,
        (visibleTodos L .active).count t + (visibleTodos L .completed).count t
          = L.count t) := by
  refine ⟨?_, ?_, ?_, ?_, ?_, ?_⟩
  · simp [visibleTodos]
  · intro t
    simp [visibleTodos, List.mem_filter]
  · intro t
    simp [visibleTodos, List.mem_filter]
  · exact List.filter_sublist L
  · exact List.filter_sublist L
  · intro t
    induction L with
    | nil => simp [visibleTodos]
    | cons x xs ih =>
      by_cases hx : x = t
      · subst hx
        cases hc : x.completed <;>
          simp [visibleTodos, List.filter_cons, hc, List.count_cons] at ih ⊢ <;>
          omega
      · cases hc : x.completed <;>
          simp [visibleTodos, List.filter_cons, hc, List.count_cons, hx] at ih ⊢ <;>
          omega

/-- C1 counterexample: in the spec's end-to-end scenario (single todo
`{id := 1, title := "A", completed := false}`, `delete` succeeds,
the reload's `list()` returns `[]`), the final state has `todos = []`
and no error raised, but `deletedTodoIds` is `[1]`, not `[]` as the
claim states: the success path of `handleDeleteTodo` never clears the
pending marker. -/
theorem C1_counterexample :
    (handleDeleteTodo (some ⟨7⟩) remoteAllOkEmpty 1 stateA).1.todos = []
    ∧ (handleDeleteTodo (some ⟨7⟩) remoteAllOkEmpty 1 stateA).1.error
        = ⟨false, ""⟩
    ∧ (handleDeleteTodo (some ⟨7⟩) remoteAllOkEmpty 1 stateA).1.deletedTodoIds
        = [1]
    ∧ ([1] : List Nat) ≠ [] := by
  refine ⟨rfl, rfl, rfl, by decide⟩

/-- C1 (amended): a `remove(id)` whose `delete` and subsequent reload
both succeed replaces `todos` with the reload result and raises no
error, but `id` stays in `PendingSet`: the final state keeps
`deletedTodoIds = old ++ [id]` (the marker is reset only on failure,
never cleared on success), and `SelectedSet` and the rest of the state
are untouched. -/
theorem C1_remove_success_keeps_marker (u : User) (remote : Remote)
    (s : AppState) (todoId : Nat) (l : List Todo)
    (hdel : remote.deleteTodo todoId = .ok ())
    (hlist : remote.getTodos u.id = .ok l) :
    (handleDeleteTodo (some u) remote todoId s).1 =
      { s with todos := l, deletedTodoIds := s.deletedTodoIds ++ [todoId] } := by
  simp [handleDeleteTodo, loadTodos, hdel, hlist]

/-- Witness for C1's amended theorem at the spec's scenario. -/
theorem C1_witness :
    (handleDeleteTodo (some ⟨7⟩) remoteAllOkEmpty 1 stateA).1 =
      { stateA with todos := [],
                    deletedTodoIds := stateA.deletedTodoIds ++ [1] } :=
  C1_remove_success_keeps_marker ⟨7⟩ remoteAllOkEmpty stateA 1 [] rfl rfl

/-- Unfolding equation for `errorAt` at a successor time. -/
theorem errorAt_succ (raises : List (Nat × String)) (t : Nat) :
    errorAt raises (t + 1) = notifierStep raises (errorAt raises t) (t + 1) := rfl

/-- An instant with no raise and no timer expiry leaves the banner
unchanged. -/
theorem notifierStep_skip (raises : List (Nat × String)) (e : ErrorType)
    (u : Nat) (h : ∀ p ∈ raises, p.1 ≠ u ∧ p.1 + 3000 ≠ u) :
    notifierStep raises e u = e := by
  have hany : raises.any (fun p => p.1 + 3000 == u) = false := by
    simp only [List.any_eq_false]
    intro p hp
    simp [(h p hp).2]
  have hfil : raises.filter (fun p => p.1 == u) = [] := by
    simp only [List.filter_eq_nil_iff]
    intro p hp
    simp [(h p hp).1]
  simp [notifierStep, hany, hfil]

/-- The banner is constant over any interval containing no raise and no
timer expiry. -/
theorem errorAt_stable (raises : List (Nat × String)) (a : Nat) :
    ∀ b : Nat, a ≤ b →
      (∀ p ∈ raises, (p.1 ≤ a ∨ b < p.1) ∧ (p.1 + 3000 ≤ a ∨ b < p.1 + 3000)) →
      errorAt raises b = errorAt raises a := by
  intro b
  induction b with
  | zero =>
    intro hab _
    have ha : a = 0 := Nat.le_zero.mp hab
    rw [ha]
  | succ t ih =>
    intro hab h
    rcases Nat.eq_or_lt_of_le hab with heq | hlt
    · rw [heq]
    · have hat : a ≤ t := by omega
      have hstep : notifierStep raises (errorAt raises t) (t + 1)
          = errorAt raises t :=
        notifierStep_skip _ _ _ (fun p hp => by have := h p hp; omega)
      rw [errorAt_succ, hstep]
      exact ih hat (fun p hp => by have := h p hp; omega)

set_option maxRecDepth 100000 in
/-- C2 counterexample: `raise("A")` at time 0 and `raise("B")` at time
1000 (before A's expiry).  The claim predicts the banner stays active
until 1000 + 3000 = 4000, but at time 3500 it is already inactive: the
first raise's timer is never cancelled and fires at 3000. -/
theorem C2_counterexample :
    (1000 : Nat) < 0 + 3000
    ∧ (3500 : Nat) < 1000 + 3000
    ∧ errorAt [(0, "A"), (1000, "B")] 3500 = ⟨false, ""⟩ := by
  refine ⟨by norm_num, by norm_num, by decide⟩

/-- C2 (amended): a second raise before the first's expiry overwrites
the message — only the second message is shown while the banner is
active — but the expiry timer is NOT restarted: the first raise's
3000 ms timer still fires, so the banner auto-clears 3000 ms after the
FIRST raise and stays inactive thereafter (the second timer's later
expiry is a no-op). -/
theorem C2_raise_overwrites_but_timer_not_restarted (m1 m2 : String)
    (r : Nat) (hr0 : 0 < r) (hr : r < 3000) :
    (∀ t, r ≤ t → t < 3000 → errorAt [(0, m1), (r, m2)] t = ⟨true, m2⟩)
    ∧ (∀ t, 3000 ≤ t → errorAt [(0, m1), (r, m2)] t = ⟨false, ""⟩) := by
  have hmem : ∀ p ∈ [((0 : Nat), m1), (r, m2)], p.1 = 0 ∨ p.1 = r := by
    intro p hp
    rcases List.mem_cons.mp hp with h | h
    · left; rw [h]
    · right; rw [List.mem_singleton.mp h]
  have hATr : errorAt [(0, m1), (r, m2)] r = ⟨true, m2⟩ := by
    obtain ⟨k, rfl⟩ : ∃ k, r = k + 1 := ⟨r - 1, by omega⟩
    rw [errorAt_succ]
    have e1 : ((0 : Nat) + 3000 == k + 1) = false := by
      simp only [beq_eq_false_iff_ne, ne_eq]
      omega
    have e2 : (k + 1 + 3000 == k + 1) = false := by
      simp only [beq_eq_false_iff_ne, ne_eq]
      omega
    have e4 : ((k + 1 : Nat) == k + 1) = true := by simp
    simp [notifierStep, e1, e2, e4]
  have hAT3000 : errorAt [(0, m1), (r, m2)] 3000 = ⟨false, ""⟩ := by
    have h3 : (3000 : Nat) = 2999 + 1 := by norm_num
    rw [h3, errorAt_succ]
    have e1 : ((0 : Nat) + 3000 == 2999 + 1) = true := by simp
    have e3 : ((0 : Nat) == 2999 + 1) = false := by simp
    have e4 : ((r : Nat) == 2999 + 1) = false := by
      simp only [beq_eq_false_iff_ne, ne_eq]
      omega
    simp [notifierStep, e1, e3, e4]
  have hATr3000 : errorAt [(0, m1), (r, m2)] (r + 3000) = ⟨false, ""⟩ := by
    have h3 : r + 3000 = (r + 2999) + 1 := by omega
    rw [h3, errorAt_succ]
    have e1 : ((0 : Nat) + 3000 == r + 2999 + 1) = false := by
      simp only [beq_eq_false_iff_ne, ne_eq]
      omega
    have e2 : ((r : Nat) + 3000 == r + 2999 + 1) = true := by
      simp only [beq_iff_eq]
    have e3 : ((0 : Nat) == r + 2999 + 1) = false := by simp
    have e4 : ((r : Nat) == r + 2999 + 1) = false := by
      simp only [beq_eq_false_iff_ne, ne_eq]
      omega
    simp [notifierStep, e1, e2, e3, e4]
  constructor
  · intro t hrt ht
    have hstab : errorAt [(0, m1), (r, m2)] t = errorAt [(0, m1), (r, m2)] r := by
      apply errorAt_stable _ r t hrt
      intro p hp
      rcases hmem p hp with h | h <;> rw [h] <;> omega
    rw [hstab, hATr]
  · intro t ht
    by_cases htr : t < r + 3000
    · have hstab : errorAt [(0, m1), (r, m2)] t
          = errorAt [(0, m1), (r, m2)] 3000 := by
        apply errorAt_stable _ 3000 t ht
        intro p hp
        rcases hmem p hp with h | h <;> rw [h] <;> omega
      rw [hstab, hAT3000]
    · have hstab : errorAt [(0, m1), (r, m2)] t
          = errorAt [(0, m1), (r, m2)] (r + 3000) := by
        apply errorAt_stable _ (r + 3000) t (by omega)
        intro p hp
        rcases hmem p hp with h | h <;> rw [h] <;> omega
      rw [hstab, hATr3000]

/-- Witness for C2's amended theorem: raises at 0 ("A") and 1000 ("B");
at 2000 the banner shows "B", at 3500 it is inactive. -/
theorem C2_witness :
    errorAt [(0, "A"), (1000, "B")] 2000 = ⟨true, "B"⟩
    ∧ errorAt [(0, "A"), (1000, "B")] 3500 = ⟨false, ""⟩ :=
  ⟨(C2_raise_overwrites_but_timer_not_restarted "A" "B" 1000 (by norm_num)
      (by norm_num)).1 2000 (by norm_num) (by norm_num),
   (C2_raise_overwrites_but_timer_not_restarted "A" "B" 1000 (by norm_num)
      (by norm_num)).2 3500 (by norm_num)⟩

/-- C3 counterexample: with no user (`ownerId` absent), `remove(1)` is
NOT a no-op: it dispatches `delete 1` and mutates `deletedTodoIds`. -/
theorem C3_counterexample :
    (handleDeleteTodo none remoteAllOkEmpty 1 stateA).2 = [.delete 1]
    ∧ (handleDeleteTodo none remoteAllOkEmpty 1 stateA).1.deletedTodoIds = [1]
    ∧ (handleDeleteTodo none remoteAllOkEmpty 1 stateA).1 ≠ stateA := by
  refine ⟨rfl, rfl, by decide⟩

/-- C3 (amended): only `reload()` and `add()` are guarded by the user:
with `ownerId` absent they issue no RemoteStore call and leave the state
unchanged.  `remove`, `toggle`, `rename`, `removeCompleted` and
`toggleAll` run regardless: they dispatch their mutation calls (and
update markers and error state) as usual; only their inner reload is
skipped. -/
theorem C3_only_reload_and_add_guarded (remote : Remote) (s : AppState)
    (todoId : Nat) (completed : Bool) (title : String) :
    loadTodos none remote s = (s, [])
    ∧ handleAddNewTodo none remote s = (s, [])
    ∧ (handleDeleteTodo none remote todoId s).2 = [.delete todoId]
    ∧ (handleToggleTodo none remote todoId completed s).2
        = [.update todoId (.completed (!completed))]
    ∧ (handleChangeTodoTitle none remote todoId title s).2
        = [.update todoId (.title title)]
    ∧ (handleDeleteCompletedTodos none remote s).2
        = (s.todos.filter (fun t => t.completed)).map
            (fun t => RemoteCall.delete t.id)
    ∧ (handleToggleAllTodos none remote s).2
        = (s.todos.filter
            (fun t => !t.completed || isEachTodoCompleted s.todos)).map
            (fun t => RemoteCall.update t.id (.completed (!t.completed))) := by
  refine ⟨rfl, rfl, ?_, ?_, ?_, ?_, ?_⟩
  · unfold handleDeleteTodo
    cases remote.deleteTodo todoId <;> simp [loadTodos]
  · unfold handleToggleTodo
    cases remote.updateTodo todoId (.completed (!completed)) <;> simp [loadTodos]
  · unfold handleChangeTodoTitle
    cases remote.updateTodo todoId (.title title) <;> simp [loadTodos]
  · unfold handleDeleteCompletedTodos
    dsimp only
    split <;> simp [loadTodos]
  · unfold handleToggleAllTodos
    dsimp only
    split <;> simp [loadTodos]

/-- C4: when at least one delete issued by `removeCompleted()` fails,
the handler raises "Unable to delete a todo", clears `selectedTodoIds`,
and leaves `deletedTodoIds` holding exactly the completed ids that were
set up front (the pending markers are not rolled back); `todos` is
untouched. -/
theorem C4_removeCompleted_failure (user : Option User) (remote : Remote)
    (s : AppState)
    (h : ∃ t ∈ s.todos, t.completed = true
          ∧ exceptOk (remote.deleteTodo t.id) = false) :
    (handleDeleteCompletedTodos user remote s).1.error
        = ⟨true, "Unable to delete a todo"⟩
    ∧ (handleDeleteCompletedTodos user remote s).1.selectedTodoIds = []
    ∧ (handleDeleteCompletedTodos user remote s).1.deletedTodoIds
        = (s.todos.filter (fun t => t.completed)).map (fun t => t.id)
    ∧ (handleDeleteCompletedTodos user remote s).1.todos = s.todos := by
  have hall : (s.todos.filter (fun t => t.completed)).all
      (fun t => exceptOk (remote.deleteTodo t.id)) = false := by
    obtain ⟨t, ht, hc, hf⟩ := h
    simp only [List.all_eq_false]
    exact ⟨t, List.mem_filter.mpr ⟨ht, hc⟩, by simp [hf]⟩
  simp [handleDeleteCompletedTodos, hall, showError]

/-- Witness for C4 at a mixed list whose completed todo's delete
fails. -/
theorem C4_witness :
    (handleDeleteCompletedTodos (some ⟨7⟩) remoteDeleteErr stateMixed).1.error
        = ⟨true, "Unable to delete a todo"⟩
    ∧ (handleDeleteCompletedTodos (some ⟨7⟩) remoteDeleteErr
        stateMixed).1.selectedTodoIds = []
    ∧ (handleDeleteCompletedTodos (some ⟨7⟩) remoteDeleteErr
        stateMixed).1.deletedTodoIds
        = (stateMixed.todos.filter (fun t => t.completed)).map (fun t => t.id)
    ∧ (handleDeleteCompletedTodos (some ⟨7⟩) remoteDeleteErr
        stateMixed).1.todos = stateMixed.todos :=
  C4_removeCompleted_failure (some ⟨7⟩) remoteDeleteErr stateMixed
    ⟨⟨2, "B", true, 7⟩, by decide, rfl, rfl⟩

/-- C5 counterexample: a `remove(1)` whose `delete` succeeds but whose
subsequent reload fails does NOT behave as the claim states: the error
raised is "Unable to load todos" (not "Unable to delete a todo") and
`deletedTodoIds` is left as `[5, 1]` (prior content plus the appended
id), not reset to `[]`. -/
theorem C5_counterexample :
    (handleDeleteTodo (some ⟨7⟩) remoteListErr 1 stateD).1.error
        = ⟨true, "Unable to load todos"⟩
    ∧ (handleDeleteTodo (some ⟨7⟩) remoteListErr 1 stateD).1.deletedTodoIds
        = [5, 1] := by
  exact ⟨rfl, rfl⟩

/-- C5 (amended): only a failure of `RemoteStore.delete` itself raises
"Unable to delete a todo" and resets `deletedTodoIds` to the empty list
(clearing unrelated ids too).  A failure of the subsequent reload is
caught inside `loadTodos`: it raises "Unable to load todos" and leaves
`deletedTodoIds` untouched, still holding the prior ids plus the
appended id. -/
theorem C5_remove_failure_reset (u : User) (remote : Remote) (s : AppState)
    (todoId : Nat) :
    (exceptOk (remote.deleteTodo todoId) = false →
      (handleDeleteTodo (some u) remote todoId s).1 =
        { s with error := ⟨true, "Unable to delete a todo"⟩,
                 deletedTodoIds := [] })
    ∧ (remote.deleteTodo todoId = .ok () →
        remote.getTodos u.id = .error () →
        (handleDeleteTodo (some u) remote todoId s).1 =
          { s with error := ⟨true, "Unable to load todos"⟩,
                   deletedTodoIds := s.deletedTodoIds ++ [todoId] }) := by
  constructor
  · intro h
    unfold handleDeleteTodo
    match hd : remote.deleteTodo todoId with
    | .error _ => simp [showError]
    | .ok _ => rw [hd] at h; simp [exceptOk] at h
  · intro hd hl
    simp [handleDeleteTodo, hd, loadTodos, hl, showError]

/-- Witness for C5's amended theorem on both failure branches. -/
theorem C5_witness :
    (handleDeleteTodo (some ⟨7⟩) remoteDeleteErr 1 stateD).1 =
      { stateD with error := ⟨true, "Unable to delete a todo"⟩,
                    deletedTodoIds := [] }
    ∧ (handleDeleteTodo (some ⟨7⟩) remoteListErr 1 stateD).1 =
      { stateD with error := ⟨true, "Unable to load todos"⟩,
                    deletedTodoIds := stateD.deletedTodoIds ++ [1] } :=
  ⟨(C5_remove_failure_reset ⟨7⟩ remoteDeleteErr stateD 1).1 rfl,
   (C5_remove_failure_reset ⟨7⟩ remoteListErr stateD 1).2 rfl rfl⟩

/-- C6: `toggleAll()` on a list where every todo is completed dispatches
an update flipping every todo to `completed = false`; on a list with at
least one incomplete todo it dispatches updates exactly for the
incomplete todos, each set to `completed = true`, and (given the
server-assigned ids are distinct) dispatches no update for an
already-completed todo. -/
theorem C6_toggleAll_updates (user : Option User) (remote : Remote)
    (s : AppState) :
    (isEachTodoCompleted s.todos = true →
      ((handleToggleAllTodos user remote s).2.filter isUpdateCall)
        = s.todos.map (fun t => RemoteCall.update t.id (.completed false)))
    ∧ (isEachTodoCompleted s.todos = false →
      ((handleToggleAllTodos user remote s).2.filter isUpdateCall)
        = (s.todos.filter (fun t => !t.completed)).map
            (fun t => RemoteCall.update t.id (.completed true)))
    ∧ ((s.todos.map (fun t => t.id)).Nodup →
        isEachTodoCompleted s.todos = false →
        ∀ t ∈ s.todos, t.completed = true →
          ∀ p, RemoteCall.update t.id p
            ∉ (handleToggleAllTodos user remote s).2) := by
  have htrace : (handleToggleAllTodos user remote s).2.filter isUpdateCall
      = (s.todos.filter
          (fun t => !t.completed || isEachTodoCompleted s.todos)).map
          (fun t => RemoteCall.update t.id (.completed (!t.completed))) := by
    unfold handleToggleAllTodos
    dsimp only
    split
    · cases user with
      | none => simp [loadTodos, List.filter_map, isUpdateCall, Function.comp]
      | some u =>
        cases hg : remote.getTodos u.id <;>
          simp [loadTodos, hg, List.filter_map, isUpdateCall, Function.comp]
    · simp [List.filter_map, isUpdateCall, Function.comp]
  refine ⟨?_, ?_, ?_⟩
  · intro h
    rw [htrace]
    have hfilter : s.todos.filter
        (fun t => !t.completed || isEachTodoCompleted s.todos) = s.todos := by
      rw [h]
      simp
    rw [hfilter]
    apply List.map_congr_left
    intro t ht
    simp only [isEachTodoCompleted, List.all_eq_true] at h
    rw [h t ht]
    rfl
  · intro h
    rw [htrace, h]
    simp only [Bool.or_false]
    apply List.map_congr_left
    intro t ht
    rw [List.mem_filter] at ht
    rw [ht.2]
  · intro hno h t ht hc p hmem
    have hmem2 : RemoteCall.update t.id p
        ∈ (handleToggleAllTodos user remote s).2.filter isUpdateCall :=
      List.mem_filter.mpr ⟨hmem, rfl⟩
    rw [htrace, h] at hmem2
    simp only [Bool.or_false, List.mem_map, List.mem_filter] at hmem2
    obtain ⟨t', ⟨ht', hc'⟩, heq⟩ := hmem2
    injection heq with hid hpatch
    have : t' = t := List.inj_on_of_nodup_map hno ht' ht hid
    rw [this] at hc'
    rw [hc] at hc'
    simp at hc'

/-- Witness for C6: an all-completed list flips every todo to
incomplete; a mixed list updates only its incomplete todo, and its
completed todo (id 2) receives no update. -/
theorem C6_witness :
    ((handleToggleAllTodos (some ⟨7⟩) remoteAllOkEmpty
        stateAllDone).2.filter isUpdateCall)
      = stateAllDone.todos.map (fun t => RemoteCall.update t.id (.completed false))
    ∧ ((handleToggleAllTodos (some ⟨7⟩) remoteAllOkEmpty
        stateMixed).2.filter isUpdateCall)
      = (stateMixed.todos.filter (fun t => !t.completed)).map
          (fun t => RemoteCall.update t.id (.completed true))
    ∧ RemoteCall.update 2 (.completed false)
        ∉ (handleToggleAllTodos (some ⟨7⟩) remoteAllOkEmpty stateMixed).2 :=
  ⟨(C6_toggleAll_updates (some ⟨7⟩) remoteAllOkEmpty stateAllDone).1 (by decide),
   (C6_toggleAll_updates (some ⟨7⟩) remoteAllOkEmpty stateMixed).2.1 (by decide),
   (C6_toggleAll_updates (some ⟨7⟩) remoteAllOkEmpty stateMixed).2.2
     (by decide) (by decide) ⟨2, "B", true, 7⟩ (by decide) rfl
     (.completed false)⟩

/-- C7: with a user present, `add` on a draft title that trims to the
empty string dispatches no RemoteStore call (in particular never
`create`), raises "Title can't be empty", leaves the draft title
unchanged and ends with `isAdding = false`. -/
theorem C7_add_empty_title (u : User) (remote : Remote) (s : AppState)
    (h : jsTrim s.todoTitle = "") :
    handleAddNewTodo (some u) remote s =
      ({ s with error := ⟨true, "Title can't be empty"⟩, isAdding := false },
       []) := by
  simp [handleAddNewTodo, h, showError]

/-- Witness for C7 at the draft title `"   "`. -/
theorem C7_witness :
    handleAddNewTodo (some ⟨7⟩) remoteAllOkEmpty stateWS =
      ({ stateWS with error := ⟨true, "Title can't be empty"⟩,
                      isAdding := false },
       []) :=
  C7_add_empty_title ⟨7⟩ remoteAllOkEmpty stateWS (by decide)

/-- Running `loadTodos` yields a state whose cached list is the old one
or a fresh successful read. -/
theorem loadTodos_reload (user : Option User) (remote : Remote)
    (s s₀ : AppState) (h : s.todos = s₀.todos) :
    todosFromReload user remote s₀ (loadTodos user remote s).1 := by
  cases user with
  | none =>
    left
    simpa [loadTodos] using h
  | some u =>
    cases hg : remote.getTodos u.id with
    | ok l =>
      right
      exact ⟨u, rfl, by simp [loadTodos, hg]⟩
    | error e =>
      left
      simp [loadTodos, hg, showError, h]

/-- `todosFromReload` only depends on the `todos` field of the final
state. -/
theorem todosFromReload_congr (user : Option User) (remote : Remote)
    (s x y : AppState) (hxy : y.todos = x.todos)
    (h : todosFromReload user remote s x) :
    todosFromReload user remote s y := by
  rcases h with h | ⟨u, hu, hg⟩
  · left
    rw [hxy, h]
  · right
    exact ⟨u, hu, by rw [hxy]; exact hg⟩

/-- C8: every operation leaves the cached `todos` either untouched or
wholesale replaced by a successful `list()` read (no local patching),
and a failed reload keeps the last known list while raising
"Unable to load todos". -/
theorem C8_todos_wholesale (user : Option User) (remote : Remote)
    (s : AppState) (todoId : Nat) (completed : Bool) (title : String) :
    todosFromReload user remote s (loadTodos user remote s).1
    ∧ todosFromReload user remote s (handleAddNewTodo user remote s).1
    ∧ todosFromReload user remote s (handleDeleteTodo user remote todoId s).1
    ∧ todosFromReload user remote s (handleDeleteCompletedTodos user remote s).1
    ∧ todosFromReload user remote s
        (handleToggleTodo user remote todoId completed s).1
    ∧ todosFromReload user remote s (handleToggleAllTodos user remote s).1
    ∧ todosFromReload user remote s
        (handleChangeTodoTitle user remote todoId title s).1
    ∧ (∀ u : User, user = some u → remote.getTodos u.id = .error () →
        (loadTodos user remote s).1
          = { s with error := ⟨true, "Unable to load todos"⟩ }) := by
  refine ⟨loadTodos_reload user remote s s rfl, ?_, ?_, ?_, ?_, ?_, ?_, ?_⟩
  · unfold handleAddNewTodo
    cases user with
    | none => left; rfl
    | some u =>
      dsimp only
      split
      · left; rfl
      · split
        · left; rfl
        · exact todosFromReload_congr _ _ _ _ _ rfl
            (loadTodos_reload _ _ _ _ rfl)
  · unfold handleDeleteTodo
    dsimp only
    split
    · left; rfl
    · exact loadTodos_reload _ _ _ _ rfl
  · unfold handleDeleteCompletedTodos
    dsimp only
    split
    · exact loadTodos_reload _ _ _ _ rfl
    · left; rfl
  · unfold handleToggleTodo
    dsimp only
    split
    · left; rfl
    · exact todosFromReload_congr _ _ _ _ _ rfl (loadTodos_reload _ _ _ _ rfl)
  · unfold handleToggleAllTodos
    dsimp only
    split
    · exact todosFromReload_congr _ _ _ _ _ rfl (loadTodos_reload _ _ _ _ rfl)
    · left; rfl
  · unfold handleChangeTodoTitle
    dsimp only
    split
    · left; rfl
    · exact todosFromReload_congr _ _ _ _ _ rfl (loadTodos_reload _ _ _ _ rfl)
  · intro u hu hg
    subst hu
    simp [loadTodos, hg, showError]

/-- Witness for C8's reload-failure clause: a failed `list()` keeps the
old cached list and raises "Unable to load todos". -/
theorem C8_witness :
    (loadTodos (some ⟨7⟩) remoteListErr stateA).1
      = { stateA with error := ⟨true, "Unable to load todos"⟩ } :=
  (C8_todos_wholesale (some ⟨7⟩) remoteListErr stateA 1 false "X").2.2.2.2.2.2.2
    ⟨7⟩ rfl rfl

/-- C10: on a `toggle(id, completed)` whose update and subsequent reload
both succeed, exactly the occurrences of `id` are removed from
`selectedTodoIds` (the result is the prior content filtered), `id` is no
longer a member, and every other id keeps its multiplicity — the
markers of other in-flight toggles are preserved. -/
theorem C10_toggle_success_frame (u : User) (remote : Remote) (s : AppState)
    (todoId : Nat) (completed : Bool) (todo : Todo) (l : List Todo)
    (hupd : remote.updateTodo todoId (.completed (!completed)) = .ok todo)
    (hlist : remote.getTodos u.id = .ok l) :
    (handleToggleTodo (some u) remote todoId completed s).1.selectedTodoIds
      = s.selectedTodoIds.filter (fun j => j ≠ todoId)
    ∧ todoId ∉
        (handleToggleTodo (some u) remote todoId completed s).1.selectedTodoIds
    ∧ ∀ j, j ≠ todoId →
        ((handleToggleTodo (some u) remote todoId
            completed s).1.selectedTodoIds.count j
          = s.selectedTodoIds.count j) := by
  have hsel : (handleToggleTodo (some u) remote todoId
      completed s).1.selectedTodoIds
      = s.selectedTodoIds.filter (fun j => j ≠ todoId) := by
    simp [handleToggleTodo, hupd, loadTodos, hlist]
  refine ⟨hsel, ?_, ?_⟩
  · rw [hsel]
    simp
  · intro j hj
    rw [hsel]
    rw [List.count_filter]
    simp [hj]

/-- Witness for C10: toggling id 3 with ids 3 and 9 already selected
leaves 9's marker untouched. -/
theorem C10_witness :
    (handleToggleTodo (some ⟨7⟩) remoteAllOkEmpty 3
        false stateSel).1.selectedTodoIds
      = stateSel.selectedTodoIds.filter (fun j => j ≠ 3)
    ∧ (3 : Nat) ∉ (handleToggleTodo (some ⟨7⟩) remoteAllOkEmpty 3
        false stateSel).1.selectedTodoIds
    ∧ (handleToggleTodo (some ⟨7⟩) remoteAllOkEmpty 3
        false stateSel).1.selectedTodoIds.count 9
      = stateSel.selectedTodoIds.count 9 :=
  ⟨(C10_toggle_success_frame ⟨7⟩ remoteAllOkEmpty stateSel 3 false
      ⟨3, "", false, 0⟩ [] rfl rfl).1,
   (C10_toggle_success_frame ⟨7⟩ remoteAllOkEmpty stateSel 3 false
      ⟨3, "", false, 0⟩ [] rfl rfl).2.1,
   (C10_toggle_success_frame ⟨7⟩ remoteAllOkEmpty stateSel 3 false
      ⟨3, "", false, 0⟩ [] rfl rfl).2.2 9 (by decide)⟩
